import Mathlib

/-!
Verification of the plugin lifecycle and dependency orchestration core of the
tuleaj-plugin-aggregator repository, as a shallow embedding in Lean 4.

The embedding covers:
* `src/core/dependency_manager.py`: `VersionResolver.resolve_version_conflict`,
  `VersionResolver._get_version_priority`, `VersionResolver.is_compatible`,
  `DependencyManager.sync_dependencies_with_uv`,
  `DependencyManager._generate_pyproject_content`;
* `src/core/plugin_process_manager.py`: `start_plugin`, `is_plugin_running`,
  `get_all_running_plugins`, `_on_process_error`, `_cleanup_process`;
* `src/core/plugin_bridge.py`: `_is_normal_exit`,
  `_on_plugin_process_finished`, `uninstall_plugin`, `get_plugin_by_name`.

Python strings are modelled as `List Char`; the helpers `pySplit`,
`containsSub`, `trimChars` mirror `str.split(sep)`, `sub in s` and
`str.strip()`.  The external `packaging` library (version and specifier
parsing) is modelled on its numeric-release fragment: dot-separated numeric
releases and the comparison operators `>=, >, ==, <=, <, !=`, which is the
fragment exercised by this repository's manifests; `packaging` additionally
accepts epochs, pre-releases, wildcards and `~=`/`===`, none of which occur
here and none of which are needed by any concrete input below.
-/

namespace Tuleaj

/-! ## Python string primitives -/

/-- `isPrefixList p s` holds when `p` is a prefix of `s` (used to locate
separator occurrences, scanning left to right as Python does). -/
def isPrefixList (p s : List Char) : Bool :=
  match p, s with
  | [], _ => true
  | _ :: _, [] => false
  | a :: p', b :: s' => a == b && isPrefixList p' s'

/-- Auxiliary splitter with explicit fuel.  With `fuel ≥ s.length` and a
non-empty separator this computes Python's `str.split(sep)`: left-to-right,
non-overlapping occurrences, empty chunks kept. -/
def splitOnFuel (sep : List Char) : Nat → List Char → List Char → List (List Char)
  | _, [], acc => [acc]
  | 0, s, acc => [acc ++ s]
  | Nat.succ fuel, c :: rest, acc =>
    if isPrefixList sep (c :: rest) then
      acc :: splitOnFuel sep fuel (List.drop sep.length (c :: rest)) []
    else
      splitOnFuel sep fuel rest (acc ++ [c])

/-- Python `s.split(sep)` for a non-empty separator `sep`. -/
def pySplit (s sep : List Char) : List (List Char) :=
  splitOnFuel sep s.length s []

/-- Python `sub in s` (substring containment). -/
def containsSub (sub : List Char) : List Char → Bool
  | [] => isPrefixList sub []
  | c :: rest => isPrefixList sub (c :: rest) || containsSub sub rest

/-- The whitespace characters stripped by `str.strip()` that can occur in
manifest constraint strings. -/
def isSpaceChar (c : Char) : Bool :=
  c == ' ' || c == '\t' || c == '\n' || c == '\r'

/-- Drop leading whitespace. -/
def dropLeadingSpaces : List Char → List Char
  | [] => []
  | c :: rest => if isSpaceChar c then dropLeadingSpaces rest else c :: rest

/-- Python `s.strip()`. -/
def trimChars (s : List Char) : List Char :=
  dropLeadingSpaces (dropLeadingSpaces s.reverse).reverse

/-- Accumulator pass of decimal-digit parsing. -/
def digitsToNat : List Char → Nat → Nat
  | [], acc => acc
  | c :: rest, acc => digitsToNat rest (acc * 10 + (c.toNat - '0'.toNat))

/-- Parse a non-empty all-digit chunk as a natural number (Python `int(s)`
restricted to version release segments). -/
def parseNatNum (cs : List Char) : Option Nat :=
  if !cs.isEmpty && cs.all Char.isDigit then some (digitsToNat cs 0) else none

/-! ## Model of `packaging.version` / `packaging.specifiers` (numeric fragment) -/

/-- A version's `(major, minor, micro)` triple, as exposed by
`packaging.version.Version.major/minor/micro` (0 when the release has fewer
than 2 or 3 segments). -/
abbrev Ver := Nat × Nat × Nat

/-- Pad a parsed release segment list to the `(major, minor, micro)` view. -/
def verOfRelease (l : List Nat) : Ver :=
  (l.headD 0, (l.drop 1).headD 0, (l.drop 2).headD 0)

/-- `packaging.version.parse` on its numeric-release fragment: surrounding
whitespace stripped, then dot-separated non-empty numeric segments.  Inputs
outside the fragment (epochs, letters, commas, ...) yield `none`, matching
the `InvalidVersion` exception. -/
def pyVersionParse (cs : List Char) : Option Ver :=
  ((pySplit (trimChars cs) ['.']).mapM parseNatNum).map verOfRelease

/-- The comparison operators of a version specifier clause handled by this
repository's manifests. -/
inductive CmpOp
  | ge | gt | eq | le | lt | ne
deriving DecidableEq, Repr

/-- One clause of a `packaging.specifiers.SpecifierSet`: an operator and its
boundary version. -/
structure Clause where
  op : CmpOp
  ver : Ver
deriving DecidableEq, Repr

/-- Parse one specifier clause (`packaging.specifiers.Specifier` on the
numeric fragment): optional surrounding whitespace, a comparison operator
(two-character operators matched first), and a version. -/
def parseClause (cs : List Char) : Option Clause :=
  let t := trimChars cs
  if isPrefixList ['>', '='] t then (pyVersionParse (t.drop 2)).map (⟨CmpOp.ge, ·⟩)
  else if isPrefixList ['<', '='] t then (pyVersionParse (t.drop 2)).map (⟨CmpOp.le, ·⟩)
  else if isPrefixList ['=', '='] t then (pyVersionParse (t.drop 2)).map (⟨CmpOp.eq, ·⟩)
  else if isPrefixList ['!', '='] t then (pyVersionParse (t.drop 2)).map (⟨CmpOp.ne, ·⟩)
  else if isPrefixList ['>'] t then (pyVersionParse (t.drop 1)).map (⟨CmpOp.gt, ·⟩)
  else if isPrefixList ['<'] t then (pyVersionParse (t.drop 1)).map (⟨CmpOp.lt, ·⟩)
  else none

/-- `packaging.specifiers.SpecifierSet(s)`: split on commas, drop
empty/whitespace-only pieces, parse each clause; any unparsable clause makes
the whole constructor raise (`none`).  The empty string parses to the empty
clause set. -/
def parseSpecifierSet (cs : List Char) : Option (List Clause) :=
  (((pySplit cs [',']).map trimChars).filter (fun p => !p.isEmpty)).mapM parseClause

/-- Strict lexicographic order on `(major, minor, micro)` triples, the
order `packaging` uses to compare purely numeric releases. -/
def verLtB (a b : Ver) : Bool :=
  a.1 < b.1 || (a.1 == b.1 && (a.2.1 < b.2.1 || (a.2.1 == b.2.1 && a.2.2 < b.2.2)))

/-- Whether a concrete version satisfies one specifier clause. -/
def Clause.sat (c : Clause) (v : Ver) : Bool :=
  match c.op with
  | CmpOp.ge => !verLtB v c.ver
  | CmpOp.gt => verLtB c.ver v
  | CmpOp.eq => v == c.ver
  | CmpOp.le => !verLtB c.ver v
  | CmpOp.lt => verLtB v c.ver
  | CmpOp.ne => !(v == c.ver)

/-- Whether a concrete version satisfies every clause of a specifier set. -/
def satisfiesSpecSet (cs : List Clause) (v : Ver) : Bool :=
  cs.all (fun c => c.sat v)

/-- The meaning the spec assigns to `is_compatible a b` ("the intersection of
the two specifier sets is non-empty"): both strings parse and some version
satisfies both sets. -/
def CommonVersionExists (s1 s2 : String) : Prop :=
  ∃ c1 c2 v, parseSpecifierSet s1.data = some c1 ∧ parseSpecifierSet s2.data = some c2 ∧
    satisfiesSpecSet c1 v = true ∧ satisfiesSpecSet c2 v = true

/-! ## `VersionResolver` (src/core/dependency_manager.py, lines 34-134) -/

/-- `DependencyInfo` (dependency_manager.py, lines 19-31). -/
structure DependencyInfo where
  name : String
  version_spec : String
  source : String
deriving DecidableEq, Repr

/-- The boundary-version string extracted by
`VersionResolver._get_version_priority` (lines 91-104): the first comparison
operator found by substring search, checked in the order
`>=, >, ==, <=, <`, and Python's `spec.split(op)[1]` (the text between the
first and second occurrence of the operator). -/
def extractBoundary (version_spec : List Char) : Option (List Char) :=
  if containsSub ['>', '='] version_spec then some ((pySplit version_spec ['>', '=']).getD 1 [])
  else if containsSub ['>'] version_spec then some ((pySplit version_spec ['>']).getD 1 [])
  else if containsSub ['=', '='] version_spec then some ((pySplit version_spec ['=', '=']).getD 1 [])
  else if containsSub ['<', '='] version_spec then some ((pySplit version_spec ['<', '=']).getD 1 [])
  else if containsSub ['<'] version_spec then some ((pySplit version_spec ['<']).getD 1 [])
  else none

/-- `VersionResolver._get_version_priority` (lines 80-121): no operator
found or `version.parse` failure yields priority `0.0`, otherwise
`major * 10000 + minor * 100 + micro`. -/
def get_version_priority (version_spec : List Char) : Nat :=
  match extractBoundary version_spec with
  | none => 0
  | some vs =>
    match pyVersionParse vs with
    | none => 0
    | some (major, minor, micro) => major * 10000 + minor * 100 + micro

/-- The boundary version named by the claim for C2: the parsed operand of
the first comparison operator found in priority order `>=, >, ==, <=, <`
(the same extraction `_get_version_priority` performs, before it collapses
the triple into a weighted sum). -/
def claimBoundaryVer (s : String) : Option Ver :=
  (extractBoundary s.data).bind pyVersionParse

/-- Python `max(v :: vs, key)`: left fold keeping the current element unless
a later element has a strictly greater key, so the first element attaining
the maximal key wins. -/
def pyMaxBy (key : String → Nat) (x : String) (xs : List String) : String :=
  xs.foldl (fun acc y => if key acc < key y then y else acc) x

/-- The sublist of `deps` whose `version_spec` parses as a
`SpecifierSet` — the `version_specs` list built by the loop at
lines 55-62 (each kept entry carries its original string). -/
def parseable_version_specs (deps : List DependencyInfo) : List String :=
  deps.filterMap fun d =>
    if (parseSpecifierSet d.version_spec.data).isSome then some d.version_spec else none

/-- `VersionResolver.resolve_version_conflict` (lines 37-78): `None` for no
constraints, the unique constraint unchanged for one, otherwise the
parseable constraint maximising `_get_version_priority` (Python `max`:
first wins on ties); `None` when nothing parses. -/
def resolve_version_conflict (deps : List DependencyInfo) : Option String :=
  match deps with
  | [] => none
  | [d] => some d.version_spec
  | _ :: _ :: _ =>
    match parseable_version_specs deps with
    | [] => none
    | v :: vs => some (pyMaxBy (fun s => get_version_priority s.data) v vs)

/-- `VersionResolver.is_compatible` (lines 123-134).  `spec1 & spec2` builds
the union of the two clause sets, and `bool(...)` on a `SpecifierSet` is
`len(union) > 0`; the union is non-empty exactly when the concatenation is,
which is what the embedding tests.  Parse failures are caught and yield
`False`. -/
def is_compatible (version_spec1 version_spec2 : String) : Bool :=
  match parseSpecifierSet version_spec1.data, parseSpecifierSet version_spec2.data with
  | some s1, some s2 => !(s1 ++ s2).isEmpty
  | _, _ => false

/-! ## `DependencyManager.sync_dependencies_with_uv`
(src/core/dependency_manager.py, lines 290-446)

The function manipulates exactly three files inside the environment
directory: the live manifest `pyproject.toml`, the temporary
`pyproject.toml.temp` and the backup `pyproject.toml.backup`.  `FsState`
records the content of each (`none` = absent).  The `uv sync` subprocess is
external; its observable outcome is an exit code with captured output, a
`subprocess.TimeoutExpired`, or some other exception raised by the call. -/

/-- Contents of the three manifest paths used by the sync protocol. -/
structure FsState where
  original : Option String
  temp : Option String
  backup : Option String
deriving DecidableEq, Repr

/-- Outcome of the `subprocess.run(["uv", "sync", ...])` invocation. -/
inductive UvOutcome
  | exit (returncode : Nat) (stdout stderr : String)
  | timeout
  | raised (msg : String)
deriving DecidableEq, Repr

/-- The invocation failed: non-zero exit code, timeout, or exception. -/
def UvOutcome.isFailure : UvOutcome → Bool
  | UvOutcome.exit 0 _ _ => false
  | UvOutcome.exit (_ + 1) _ _ => true
  | UvOutcome.timeout => true
  | UvOutcome.raised _ => true

/-- `DependencyManager._generate_pyproject_content` (lines 411-446).
`resolved_deps` is an insertion-ordered association list, as a Python dict
is. -/
def generate_pyproject_content (resolved_deps : List (String × String)) : String :=
  let dependencies := resolved_deps.map fun p =>
    if p.2 ≠ "" then "    \"" ++ p.1 ++ p.2 ++ "\"," else "    \"" ++ p.1 ++ "\","
  let dependencies_str := String.intercalate "\n" dependencies
  "[build-system]\n" ++
  "requires = [\"hatchling\"]\n" ++
  "build-backend = \"hatchling.build\"\n\n" ++
  "[project]\n" ++
  "name = \"resolved-dependencies\"\n" ++
  "version = \"1.0.0\"\n" ++
  "description = \"Resolved dependencies for plugin environment\"\n" ++
  "requires-python = \">=3.11\"\n" ++
  "dependencies = [\n" ++
  dependencies_str ++ "\n" ++
  "]\n\n" ++
  "[tool.hatch.build.targets.wheel]\n" ++
  "packages = [\".\"]\n"

/-- `DependencyManager.sync_dependencies_with_uv` (lines 290-409), as a
transition on the manifest file state, returning the new file state and the
boolean result.

* `envExists` is `python_path.exists()` (line 306); when false the function
  returns `False` before touching any file.
* Backup (lines 316-319): if the live manifest exists, copy its content to
  the backup path.
* Temp write (lines 322-326): write the newly generated content to the temp
  path.
* Success, exit code 0 (lines 354-370): delete the live manifest if present,
  rename temp over it, delete the backup; return `True`.
* Non-zero exit (lines 371-390): restore the live manifest from the backup
  if a backup exists, delete temp then backup; return `False`.
* `TimeoutExpired` / other exception from the call (lines 392-409): delete
  temp and backup if present; return `False`.  (The live manifest was never
  written to on these paths.) -/
def sync_dependencies_with_uv (envExists : Bool) (fs : FsState)
    (resolved_deps : List (String × String)) (uv : UvOutcome) : FsState × Bool :=
  if !envExists then (fs, false)
  else
    let fs1 :=
      match fs.original with
      | some c => { fs with backup := some c }
      | none => fs
    let content := generate_pyproject_content resolved_deps
    let fs2 := { fs1 with temp := some content }
    match uv with
    | UvOutcome.exit 0 _ _ =>
      let fs3 := { fs2 with original := fs2.temp, temp := none }
      ({ fs3 with backup := none }, true)
    | UvOutcome.exit (_ + 1) _ _ =>
      let fs3 :=
        match fs2.backup with
        | some b => { fs2 with original := some b }
        | none => fs2
      ({ fs3 with temp := none, backup := none }, false)
    | UvOutcome.timeout =>
      ({ fs2 with temp := none, backup := none }, false)
    | UvOutcome.raised _ =>
      ({ fs2 with temp := none, backup := none }, false)

/-! ## `PluginProcessManager` (src/core/plugin_process_manager.py) -/

/-- `QProcess.ProcessState`. -/
inductive ProcState
  | notRunning | starting | running
deriving DecidableEq, Repr

/-- `QProcess.ProcessError` (the values tested by `_on_process_error`). -/
inductive ProcessErrorKind
  | failedToStart | crashed | timedout | writeError | readError | unknownError
deriving DecidableEq, Repr

/-- The manager's bookkeeping: `self.processes` (each live `QProcess` with
the state its handle currently reports), the keys of `self.process_info`,
and the `starting_processes` / `stopping_processes` sets. -/
structure PMState where
  processes : List (String × ProcState)
  process_info : List String
  starting_processes : List String
  stopping_processes : List String
deriving DecidableEq, Repr

/-- Python `name in self.processes` / set membership. -/
def elemName (l : List String) (n : String) : Bool :=
  l.any (fun m => m == n)

/-- The state reported by the `QProcess` handle stored for `n`, when one is
stored. -/
def lookupProc (st : PMState) (n : String) : Option ProcState :=
  (st.processes.find? (fun p => p.1 == n)).map (fun p => p.2)

/-- Key/member insertion for the dict-key and set models. -/
def insertName (l : List String) (n : String) : List String :=
  if elemName l n then l else l ++ [n]

/-- `PluginProcessManager._cleanup_process` (lines 511-549): discard from
both transition sets, delete the process-table entry and the metadata
entry.  (Signal disconnection and terminating a still-running handle act on
the OS process, not on the bookkeeping modelled here.) -/
def cleanup_process (st : PMState) (n : String) : PMState where
  processes := st.processes.filter (fun p => !(p.1 == n))
  process_info := st.process_info.filter (fun m => !(m == n))
  starting_processes := st.starting_processes.filter (fun m => !(m == n))
  stopping_processes := st.stopping_processes.filter (fun m => !(m == n))

/-- Result of a `start_plugin` call: the new bookkeeping, the returned
boolean, and whether a new `QProcess` was created and `start()` invoked. -/
structure StartResult where
  state : PMState
  returned : Bool
  spawned : Bool
deriving DecidableEq, Repr

/-- `PluginProcessManager.start_plugin` (lines 64-161).

* Lines 83-86: a name already present in `self.processes` is rejected
  (`processError` emitted, `False` returned) before any `QProcess` is
  created.
* Lines 92-117: metadata entry written, name added to
  `starting_processes`, signals connected.
* Lines 124-137: `process.start()` returns `None` in PySide6, so the code
  falls back to inspecting `process.state()`: `Starting` or `Running`
  counts as started.  `spawnState` is the state the fresh handle reports at
  that inspection.
* Lines 138-154 (started): the handle is stored in `self.processes`;
  `True` returned.
* Lines 155-161 (not started): `processError` emitted, `_cleanup_process`
  run, `False` returned. -/
def start_plugin (st : PMState) (plugin_name : String) (spawnState : ProcState) : StartResult :=
  if elemName (st.processes.map Prod.fst) plugin_name then
    ⟨st, false, false⟩
  else
    let st1 := { st with process_info := insertName st.process_info plugin_name }
    let st2 := { st1 with starting_processes := insertName st1.starting_processes plugin_name }
    if spawnState == ProcState.starting || spawnState == ProcState.running then
      ⟨{ st2 with processes := st2.processes ++ [(plugin_name, spawnState)] }, true, true⟩
    else
      ⟨cleanup_process st2 plugin_name, false, true⟩

/-- `PluginProcessManager.is_plugin_running` (lines 203-217). -/
def is_plugin_running (st : PMState) (plugin_name : String) : Bool :=
  match lookupProc st plugin_name with
  | none => false
  | some ps => ps == ProcState.running

/-- `PluginProcessManager.get_all_running_plugins` (lines 243-256). -/
def get_all_running_plugins (st : PMState) : List String :=
  (st.processes.filter (fun p => p.2 == ProcState.running)).map Prod.fst

/-- Outcome of delivering one `errorOccurred` notification: whether the
manager escalated (`processError` emitted and `_cleanup_process` run) and
the resulting bookkeeping. -/
structure ErrorOutcome where
  escalated : Bool
  state : PMState
deriving DecidableEq, Repr

/-- `PluginProcessManager._on_process_error` (lines 413-467).

* Lines 428-432: handle stored and reporting `Starting` → return.
* Lines 435-437: name in `stopping_processes` → return.
* Lines 440-456: handle stored: state `Running` or `Starting` → return;
  error kind `FailedToStart`/`Crashed` with state not `NotRunning` →
  return.
* Lines 459-462: no handle stored (orphaned notification) → return.
* Lines 465-467: otherwise emit `processError` and clean up. -/
def on_process_error (st : PMState) (plugin_name : String) (err : ProcessErrorKind) :
    ErrorOutcome :=
  match lookupProc st plugin_name with
  | some ProcState.starting => ⟨false, st⟩
  | firstLookup =>
    if elemName st.stopping_processes plugin_name then ⟨false, st⟩
    else
      match firstLookup with
      | some ps =>
        if ps == ProcState.running || ps == ProcState.starting then ⟨false, st⟩
        else if (err == ProcessErrorKind.failedToStart || err == ProcessErrorKind.crashed)
            && !(ps == ProcState.notRunning) then ⟨false, st⟩
        else ⟨true, cleanup_process st plugin_name⟩
      | none => ⟨false, st⟩

/-! ## `PluginBridge` (src/core/plugin_bridge.py) -/

/-- `QProcess.ExitStatus`: `NormalExit = 0`, `CrashExit = 1`. -/
inductive ExitStatus
  | normalExit | crashExit
deriving DecidableEq, Repr

/-- `PluginBridge._is_normal_exit` (lines 384-411): a `NormalExit` status is
accepted immediately, regardless of the exit code; otherwise exit code `0`
or one of the allow-listed codes `1`, `62097` is accepted; everything else
is an abnormal exit. -/
def is_normal_exit (exit_code : Nat) (exit_status : ExitStatus) : Bool :=
  if exit_status == ExitStatus.normalExit then true
  else if exit_code == 0 then true
  else if exit_code == 1 || exit_code == 62097 then true
  else false

/-- `PluginBridge._on_plugin_process_finished` (lines 370-382): the status
written onto the descriptor and whether `pluginError` is emitted. -/
def on_plugin_process_finished (exit_code : Nat) (exit_status : ExitStatus) :
    String × Bool :=
  if is_normal_exit exit_code exit_status then ("stopped", false) else ("error", true)

/-- Modelled from the claim's wording for comparison with the code: normal
exactly when the exit code is `0` or in the allow-list `{1, 62097}`, and the
status flag does not report abnormal termination ("any other nonzero exit
code or an abnormal-termination status flag is classified as error"). -/
def claim_normal_exit (exit_code : Nat) (exit_status : ExitStatus) : Bool :=
  (exit_code == 0 || exit_code == 1 || exit_code == 62097)
    && exit_status == ExitStatus.normalExit

/-- The fields of a scanned plugin descriptor that `uninstall_plugin`
consults. -/
structure PluginRec where
  name : String
  path : String
deriving DecidableEq, Repr

/-- `PluginBridge.get_plugin_by_name` (lines 175-180): first descriptor with
a matching name. -/
def get_plugin_by_name (plugins_info : List PluginRec) (name : String) : Option PluginRec :=
  plugins_info.find? (fun p => p.name == name)

/-- `PluginBridge.uninstall_plugin` (lines 304-363).

* Lines 308-311: unknown name → `pluginError` emitted, `False`.
* Line 315, first statement inside the `try`: the guard reads
  `self.running_processes`.  That attribute is never assigned anywhere in
  the repository — the read at line 315 is the identifier's only
  occurrence — so the lookup raises `AttributeError` on every call.  The
  `except Exception` at line 361 catches it, emits `pluginError`, and
  returns `False`; `self.plugins_info` is never modified.  The intended
  steps behind the guard (stop if running, delete the directory tree,
  remove the descriptor) are therefore unreachable. -/
def uninstall_plugin (plugins_info : List PluginRec) (plugin_name : String) :
    List PluginRec × Bool :=
  match get_plugin_by_name plugins_info plugin_name with
  | none => (plugins_info, false)
  | some _ => (plugins_info, false)

/-! ## Helper lemmas -/

theorem pyMaxBy_cons (key : String → Nat) (x y : String) (ys : List String) :
    pyMaxBy key x (y :: ys) = pyMaxBy key (if key x < key y then y else x) ys := rfl

theorem pyMaxBy_mem (key : String → Nat) (x : String) (xs : List String) :
    pyMaxBy key x xs ∈ x :: xs := by
  induction xs generalizing x with
  | nil => simp [pyMaxBy]
  | cons y ys ih =>
    rw [pyMaxBy_cons]
    rcases List.mem_cons.mp (ih (if key x < key y then y else x)) with h1 | h1
    · rw [h1]
      split <;> simp
    · exact List.mem_cons.mpr (Or.inr (List.mem_cons.mpr (Or.inr h1)))

theorem pyMaxBy_le (key : String → Nat) (x : String) (xs : List String) :
    ∀ y ∈ x :: xs, key y ≤ key (pyMaxBy key x xs) := by
  induction xs generalizing x with
  | nil =>
    intro y hy
    rcases List.mem_cons.mp hy with rfl | h
    · simp [pyMaxBy]
    · simp at h
  | cons z zs ih =>
    intro y hy
    rw [pyMaxBy_cons]
    have hx' : key x ≤ key (if key x < key z then z else x) := by split <;> omega
    have hz' : key z ≤ key (if key x < key z then z else x) := by split <;> omega
    have hhead := ih (if key x < key z then z else x) _ (List.mem_cons_self _ _)
    rcases List.mem_cons.mp hy with rfl | hy2
    · exact le_trans hx' hhead
    rcases List.mem_cons.mp hy2 with rfl | hy3
    · exact le_trans hz' hhead
    · exact ih _ y (List.mem_cons.mpr (Or.inr hy3))

theorem pyMaxBy_decomp (key : String → Nat) (x : String) (xs : List String) :
    ∃ pre post, x :: xs = pre ++ pyMaxBy key x xs :: post ∧
      ∀ y ∈ pre, key y < key (pyMaxBy key x xs) := by
  induction xs generalizing x with
  | nil => exact ⟨[], [], rfl, by simp⟩
  | cons z zs ih =>
    rw [pyMaxBy_cons]
    by_cases hk : key x < key z
    · rw [if_pos hk]
      obtain ⟨pre, post, heq, hlt⟩ := ih z
      refine ⟨x :: pre, post, by rw [List.cons_append, ← heq], ?_⟩
      intro y hy
      rcases List.mem_cons.mp hy with rfl | hy2
      · exact lt_of_lt_of_le hk (pyMaxBy_le key z zs z (List.mem_cons_self _ _))
      · exact hlt y hy2
    · rw [if_neg hk]
      obtain ⟨pre, post, heq, hlt⟩ := ih x
      cases pre with
      | nil =>
        simp only [List.nil_append] at heq
        injection heq with h1 h2
        refine ⟨[], z :: zs, ?_, by simp⟩
        rw [List.nil_append, ← h1]
      | cons p pre' =>
        simp only [List.cons_append, List.cons.injEq] at heq
        obtain ⟨rfl, heq2⟩ := heq
        refine ⟨x :: z :: pre', post, ?_, ?_⟩
        · rw [List.cons_append, List.cons_append, ← heq2]
        · have hxlt : key x < key (pyMaxBy key x zs) := hlt x (List.mem_cons_self _ _)
          intro y hy
          rcases List.mem_cons.mp hy with rfl | hy2
          · exact hxlt
          rcases List.mem_cons.mp hy2 with rfl | hy3
          · exact lt_of_le_of_lt (le_of_not_lt hk) hxlt
          · exact hlt y (List.mem_cons.mpr (Or.inr hy3))

theorem mem_parseable_version_specs {deps : List DependencyInfo} {s : String}
    (h : s ∈ parseable_version_specs deps) :
    s ∈ deps.map DependencyInfo.version_spec := by
  simp only [parseable_version_specs, List.mem_filterMap] at h
  obtain ⟨d, hd, hds⟩ := h
  split at hds
  · exact List.mem_map.mpr ⟨d, hd, Option.some.inj hds⟩
  · exact absurd hds (by simp)

theorem start_plugin_rejects_member (st : PMState) (n : String) (s : ProcState)
    (h : elemName (st.processes.map Prod.fst) n = true) :
    start_plugin st n s = ⟨st, false, false⟩ := by
  simp [start_plugin, h]

/-! ## Claim theorems -/

/-- C2 (counterexample): the claim says the winning constraint is the one
whose extracted boundary version is greatest under `(major, minor, patch)`
lexicographic ordering.  On `[">=1.101.0", ">=2.0.0"]` both constraints
parse, the boundary of `">=2.0.0"` is lexicographically greater than that of
`">=1.101.0"`, yet `resolve_version_conflict` returns `">=1.101.0"` (its
weighted priority `1*10000 + 101*100 + 0 = 20100` beats `20000`), so the
claim is false at this input. -/
theorem C2_counterexample_weighted_not_lexicographic :
    resolve_version_conflict
        [⟨"pkg", ">=1.101.0", "plugin-a"⟩, ⟨"pkg", ">=2.0.0", "plugin-b"⟩]
      = some ">=1.101.0" ∧
    resolve_version_conflict
        [⟨"pkg", ">=1.101.0", "plugin-a"⟩, ⟨"pkg", ">=2.0.0", "plugin-b"⟩]
      ≠ some ">=2.0.0" ∧
    (parseSpecifierSet (String.data ">=1.101.0")).isSome = true ∧
    (parseSpecifierSet (String.data ">=2.0.0")).isSome = true ∧
    claimBoundaryVer ">=1.101.0" = some (1, 101, 0) ∧
    claimBoundaryVer ">=2.0.0" = some (2, 0, 0) ∧
    verLtB (1, 101, 0) (2, 0, 0) = true := by
  refine ⟨by decide, by decide, by decide, by decide, by decide, by decide, by decide⟩

/-- C2 (amended): for two or more constraints with at least one parseable
specifier, `resolve_version_conflict` returns the parseable constraint whose
extracted boundary version has the greatest weighted priority
`major*10000 + minor*100 + micro` (which agrees with `(major, minor, patch)`
lexicographic ordering only while minor and micro stay below 100), ties
broken by input order (first wins); in particular
`resolve([">=1.0.0", ">=2.0.0", ">=1.5.0"])` returns `">=2.0.0"`. -/
theorem C2_amended_highest_weighted_priority_wins :
    (∀ (deps : List DependencyInfo), 2 ≤ deps.length →
      parseable_version_specs deps ≠ [] →
      ∃ r, resolve_version_conflict deps = some r ∧
        r ∈ parseable_version_specs deps ∧
        (∀ s ∈ parseable_version_specs deps,
          get_version_priority s.data ≤ get_version_priority r.data) ∧
        ∃ pre post, parseable_version_specs deps = pre ++ r :: post ∧
          ∀ s ∈ pre, get_version_priority s.data < get_version_priority r.data) ∧
    resolve_version_conflict
        [⟨"pkg", ">=1.0.0", "a"⟩, ⟨"pkg", ">=2.0.0", "b"⟩, ⟨"pkg", ">=1.5.0", "c"⟩]
      = some ">=2.0.0" := by
  refine ⟨?_, by decide⟩
  intro deps h2 hne
  match deps with
  | [] => simp at h2
  | [d] => simp at h2
  | d1 :: d2 :: rest =>
    cases hps : parseable_version_specs (d1 :: d2 :: rest) with
    | nil => exact absurd hps hne
    | cons v vs =>
      refine ⟨pyMaxBy (fun s => get_version_priority s.data) v vs, ?_, ?_, ?_, ?_⟩
      · simp only [resolve_version_conflict, hps]
      · exact pyMaxBy_mem _ v vs
      · exact pyMaxBy_le _ v vs
      · exact pyMaxBy_decomp _ v vs

/-- C2 (amended) witness: the spec's own three-constraint example. -/
theorem C2_amended_witness :
    ∃ r,
      resolve_version_conflict
          [⟨"pkg", ">=1.0.0", "a"⟩, ⟨"pkg", ">=2.0.0", "b"⟩, ⟨"pkg", ">=1.5.0", "c"⟩]
        = some r ∧
      r ∈ parseable_version_specs
          [⟨"pkg", ">=1.0.0", "a"⟩, ⟨"pkg", ">=2.0.0", "b"⟩, ⟨"pkg", ">=1.5.0", "c"⟩] ∧
      (∀ s ∈ parseable_version_specs
          [⟨"pkg", ">=1.0.0", "a"⟩, ⟨"pkg", ">=2.0.0", "b"⟩, ⟨"pkg", ">=1.5.0", "c"⟩],
        get_version_priority s.data ≤ get_version_priority r.data) ∧
      ∃ pre post,
        parseable_version_specs
            [⟨"pkg", ">=1.0.0", "a"⟩, ⟨"pkg", ">=2.0.0", "b"⟩, ⟨"pkg", ">=1.5.0", "c"⟩]
          = pre ++ r :: post ∧
        ∀ s ∈ pre, get_version_priority s.data < get_version_priority r.data :=
  C2_amended_highest_weighted_priority_wins.1
    [⟨"pkg", ">=1.0.0", "a"⟩, ⟨"pkg", ">=2.0.0", "b"⟩, ⟨"pkg", ">=1.5.0", "c"⟩]
    (by decide) (by decide)

/-- C5: `resolve_version_conflict` never synthesizes a specifier (any `some`
result is the `version_spec` of one of the input constraints), returns
`none` on the empty list, and returns a singleton's constraint unchanged. -/
theorem C5_resolve_selects_from_input :
    resolve_version_conflict [] = none ∧
    (∀ d : DependencyInfo, resolve_version_conflict [d] = some d.version_spec) ∧
    ∀ (deps : List DependencyInfo) (s : String),
      resolve_version_conflict deps = some s →
      s ∈ deps.map DependencyInfo.version_spec := by
  refine ⟨rfl, fun d => rfl, ?_⟩
  intro deps s h
  match deps with
  | [] => simp [resolve_version_conflict] at h
  | [d] =>
    simp only [resolve_version_conflict, Option.some.injEq] at h
    simp [← h]
  | d1 :: d2 :: rest =>
    cases hps : parseable_version_specs (d1 :: d2 :: rest) with
    | nil => rw [resolve_version_conflict, hps] at h; exact absurd h (by simp)
    | cons v vs =>
      rw [resolve_version_conflict, hps] at h
      replace h := Option.some.inj h
      refine mem_parseable_version_specs (s := s) ?_
      rw [hps, ← h]
      exact pyMaxBy_mem _ v vs

/-- C5 witness: the selection property at a concrete two-constraint input. -/
theorem C5_witness :
    ">=2.0.0" ∈
      ([⟨"pkg", ">=1.0.0", "a"⟩, ⟨"pkg", ">=2.0.0", "b"⟩] : List DependencyInfo).map
        DependencyInfo.version_spec :=
  C5_resolve_selects_from_input.2.2
    [⟨"pkg", ">=1.0.0", "a"⟩, ⟨"pkg", ">=2.0.0", "b"⟩] ">=2.0.0" (by decide)

/-- C3 (code bug): `is_compatible` is claimed to decide non-emptiness of the
intersection of the two specifier sets, and the code comments state the same
intent, but the implementation tests `bool(spec1 & spec2)`, which is
`len(clause set) > 0`.  On the disjoint pair `">=2.0"` / `"<1.0"` the code
returns `True` even though no version satisfies both sets (the claim and the
spec's own example demand `False`). -/
theorem C3_is_compatible_counts_clauses_not_intersection :
    is_compatible ">=1.0,<2.0" ">=1.5" = true ∧
    is_compatible ">=2.0" "<1.0" = true ∧
    ¬ CommonVersionExists ">=2.0" "<1.0" := by
  refine ⟨by decide, by decide, ?_⟩
  rintro ⟨c1, c2, v, h1, h2, h3, h4⟩
  have e1 : parseSpecifierSet (String.data ">=2.0") = some [⟨CmpOp.ge, (2, 0, 0)⟩] := by
    decide
  have e2 : parseSpecifierSet (String.data "<1.0") = some [⟨CmpOp.lt, (1, 0, 0)⟩] := by
    decide
  rw [e1] at h1
  rw [e2] at h2
  cases Option.some.inj h1
  cases Option.some.inj h2
  obtain ⟨a, b, c⟩ := v
  simp only [satisfiesSpecSet, List.all_cons, List.all_nil, Clause.sat, verLtB,
    Bool.and_true, Bool.not_eq_true', Bool.or_eq_false_iff, Bool.or_eq_true,
    Bool.and_eq_false_iff, Bool.and_eq_true, beq_iff_eq, decide_eq_false_iff_not,
    decide_eq_true_eq, not_lt] at h3 h4
  omega

/-- C1: when the `uv sync` invocation fails (non-zero exit code, timeout, or
exception), `sync_dependencies_with_uv` leaves the live manifest's content
exactly as it was, leaves neither a temp nor a backup manifest on disk, and
returns `False`.  The hypothesis `fs.backup = none` records that no stale
backup file predates the call — the invariant every exit path of the
function re-establishes. -/
theorem C1_sync_failure_preserves_manifest
    (fs : FsState) (resolved_deps : List (String × String)) (uv : UvOutcome)
    (hclean : fs.backup = none) (hfail : uv.isFailure = true) :
    (sync_dependencies_with_uv true fs resolved_deps uv).1.original = fs.original ∧
    (sync_dependencies_with_uv true fs resolved_deps uv).1.temp = none ∧
    (sync_dependencies_with_uv true fs resolved_deps uv).1.backup = none ∧
    (sync_dependencies_with_uv true fs resolved_deps uv).2 = false := by
  obtain ⟨o, t, b⟩ := fs
  replace hclean : b = none := hclean
  subst hclean
  cases uv with
  | exit code out err =>
    cases code with
    | zero => simp [UvOutcome.isFailure] at hfail
    | succ k => cases o <;> simp [sync_dependencies_with_uv]
  | timeout => cases o <;> simp [sync_dependencies_with_uv]
  | raised m => cases o <;> simp [sync_dependencies_with_uv]

/-- C1 witness: a timed-out sync over an existing manifest. -/
theorem C1_witness :
    (sync_dependencies_with_uv true ⟨some "old manifest", none, none⟩
        [("psutil", ">=7.1.0")] UvOutcome.timeout).1.original = some "old manifest" ∧
    (sync_dependencies_with_uv true ⟨some "old manifest", none, none⟩
        [("psutil", ">=7.1.0")] UvOutcome.timeout).1.temp = none ∧
    (sync_dependencies_with_uv true ⟨some "old manifest", none, none⟩
        [("psutil", ">=7.1.0")] UvOutcome.timeout).1.backup = none ∧
    (sync_dependencies_with_uv true ⟨some "old manifest", none, none⟩
        [("psutil", ">=7.1.0")] UvOutcome.timeout).2 = false :=
  C1_sync_failure_preserves_manifest ⟨some "old manifest", none, none⟩
    [("psutil", ">=7.1.0")] UvOutcome.timeout rfl rfl

/-- C4: when the `uv sync` invocation exits with code 0,
`sync_dependencies_with_uv` leaves the live manifest holding exactly the
newly generated content, leaves neither a temp nor a backup manifest on
disk, and returns `True`. -/
theorem C4_sync_success_installs_new_manifest
    (fs : FsState) (resolved_deps : List (String × String)) (out err : String) :
    (sync_dependencies_with_uv true fs resolved_deps (UvOutcome.exit 0 out err)).1.original
        = some (generate_pyproject_content resolved_deps) ∧
    (sync_dependencies_with_uv true fs resolved_deps (UvOutcome.exit 0 out err)).1.temp
        = none ∧
    (sync_dependencies_with_uv true fs resolved_deps (UvOutcome.exit 0 out err)).1.backup
        = none ∧
    (sync_dependencies_with_uv true fs resolved_deps (UvOutcome.exit 0 out err)).2
        = true := by
  obtain ⟨o, t, b⟩ := fs
  cases o <;> simp [sync_dependencies_with_uv]

/-- C6: if a `start_plugin` call succeeded for a name, a second call for the
same name without an intervening stop or termination is rejected: it
returns `False`, creates no new `QProcess` (no spawn), leaves the
bookkeeping untouched, and the process table keeps exactly one entry for
that name. -/
theorem C6_second_start_rejected
    (st : PMState) (n : String) (s1 s2 : ProcState)
    (h1 : (start_plugin st n s1).returned = true) :
    (start_plugin (start_plugin st n s1).state n s2).returned = false ∧
    (start_plugin (start_plugin st n s1).state n s2).spawned = false ∧
    (start_plugin (start_plugin st n s1).state n s2).state = (start_plugin st n s1).state ∧
    ((start_plugin st n s1).state.processes.filter (fun p => p.1 == n)).length = 1 := by
  by_cases hmem : elemName (st.processes.map Prod.fst) n = true
  · simp [start_plugin, hmem] at h1
  · rw [Bool.not_eq_true] at hmem
    by_cases hs : (s1 == ProcState.starting || s1 == ProcState.running) = true
    · have hstate : (start_plugin st n s1).state =
          { st with
            process_info := insertName st.process_info n,
            starting_processes := insertName st.starting_processes n,
            processes := st.processes ++ [(n, s1)] } := by
        simp [start_plugin, hmem, hs]
      have hnone : ∀ p ∈ st.processes, ¬(p.1 == n) = true := by
        intro p hp hpn
        have : (st.processes.map Prod.fst).any (fun m => m == n) = true :=
          List.any_eq_true.mpr ⟨p.1, List.mem_map.mpr ⟨p, hp, rfl⟩, hpn⟩
        rw [elemName] at hmem
        rw [hmem] at this
        exact Bool.false_ne_true this
      have hmem2 : elemName ((start_plugin st n s1).state.processes.map Prod.fst) n = true := by
        rw [hstate]
        simp [elemName]
      have hrej := start_plugin_rejects_member ((start_plugin st n s1).state) n s2 hmem2
      refine ⟨?_, ?_, ?_, ?_⟩
      · rw [hrej]
      · rw [hrej]
      · rw [hrej]
      · rw [hstate]
        simp only [List.filter_append]
        rw [List.filter_eq_nil_iff.mpr hnone]
        simp
    · rw [Bool.not_eq_true] at hs
      simp [start_plugin, hmem, hs] at h1

/-- C6 witness: starting the same plugin twice from an empty manager. -/
theorem C6_witness :
    (start_plugin (start_plugin ⟨[], [], [], []⟩ "demo" ProcState.starting).state
        "demo" ProcState.starting).returned = false ∧
    (start_plugin (start_plugin ⟨[], [], [], []⟩ "demo" ProcState.starting).state
        "demo" ProcState.starting).spawned = false ∧
    (start_plugin (start_plugin ⟨[], [], [], []⟩ "demo" ProcState.starting).state
        "demo" ProcState.starting).state
      = (start_plugin ⟨[], [], [], []⟩ "demo" ProcState.starting).state ∧
    ((start_plugin ⟨[], [], [], []⟩ "demo" ProcState.starting).state.processes.filter
        (fun p => p.1 == "demo")).length = 1 :=
  C6_second_start_rejected ⟨[], [], [], []⟩ "demo" ProcState.starting ProcState.starting
    (by decide)

/-- C7: an `errorOccurred` notification delivered while a plugin is in the
starting window (name in `starting_processes` or handle reporting
`Starting`) or the stopping window (name in `stopping_processes`) is
suppressed — no `processError` is emitted and no cleanup runs — as long as
the tracked handle does not report `NotRunning`. -/
theorem C7_transitional_error_suppressed
    (st : PMState) (n : String) (err : ProcessErrorKind)
    (_hwin : elemName st.starting_processes n = true ∨
             lookupProc st n = some ProcState.starting ∨
             elemName st.stopping_processes n = true)
    (halive : lookupProc st n ≠ some ProcState.notRunning) :
    (on_process_error st n err).escalated = false ∧
    (on_process_error st n err).state = st := by
  unfold on_process_error
  cases hl : lookupProc st n with
  | none =>
    by_cases hstop : elemName st.stopping_processes n = true <;> simp [hstop]
  | some ps =>
    cases ps with
    | starting => exact ⟨rfl, rfl⟩
    | running =>
      by_cases hstop : elemName st.stopping_processes n = true <;> simp [hstop]
    | notRunning => exact absurd hl halive

/-- C7 witness: a `Crashed` notification for a plugin whose handle still
reports `Starting`. -/
theorem C7_witness :
    (on_process_error ⟨[("demo", ProcState.starting)], ["demo"], ["demo"], []⟩
        "demo" ProcessErrorKind.crashed).escalated = false ∧
    (on_process_error ⟨[("demo", ProcState.starting)], ["demo"], ["demo"], []⟩
        "demo" ProcessErrorKind.crashed).state
      = ⟨[("demo", ProcState.starting)], ["demo"], ["demo"], []⟩ :=
  C7_transitional_error_suppressed
    ⟨[("demo", ProcState.starting)], ["demo"], ["demo"], []⟩
    "demo" ProcessErrorKind.crashed (Or.inl (by decide)) (by decide)

/-- C10: `is_plugin_running` answers `true` exactly when the name has a
process-table entry whose handle reports `Running`; a freshly spawned
plugin whose handle still reports `Starting` is reported as not running and
is excluded from `get_all_running_plugins` (the process table holds at most
one entry per name, as a Python dict does). -/
theorem C10_is_plugin_running_characterization (st : PMState) (n : String) :
    (is_plugin_running st n = true ↔ lookupProc st n = some ProcState.running) ∧
    ((st.processes.map Prod.fst).Nodup →
      lookupProc st n = some ProcState.starting →
      is_plugin_running st n = false ∧ n ∉ get_all_running_plugins st) := by
  constructor
  · unfold is_plugin_running
    cases hl : lookupProc st n with
    | none => simp
    | some ps => simp
  · intro hnd hl
    constructor
    · unfold is_plugin_running
      rw [hl]
      rfl
    · intro hmem
      simp only [get_all_running_plugins, List.mem_map, List.mem_filter] at hmem
      obtain ⟨p, ⟨hpmem, hprun⟩, hpn⟩ := hmem
      unfold lookupProc at hl
      cases hfind : st.processes.find? (fun q => q.1 == n) with
      | none => rw [hfind] at hl; exact absurd hl (by simp)
      | some q =>
        rw [hfind] at hl
        have hq2 : q.2 = ProcState.starting := by
          simpa using hl
        have hqmem : q ∈ st.processes := List.mem_of_find?_eq_some hfind
        have hqn : q.1 = n := by
          simpa [beq_iff_eq] using List.find?_some hfind
        have hpq : p = q :=
          List.inj_on_of_nodup_map hnd hpmem hqmem (by rw [hpn, hqn])
        rw [hpq, hq2] at hprun
        exact absurd hprun (by decide)

/-- C10 witness: a starting plugin and a running plugin side by side. -/
theorem C10_witness :
    is_plugin_running ⟨[("a", ProcState.starting), ("b", ProcState.running)], [], [], []⟩
        "a" = false ∧
    "a" ∉ get_all_running_plugins
        ⟨[("a", ProcState.starting), ("b", ProcState.running)], [], [], []⟩ :=
  (C10_is_plugin_running_characterization
      ⟨[("a", ProcState.starting), ("b", ProcState.running)], [], [], []⟩ "a").2
    (by decide) (by decide)

/-- C8 (counterexample): the claim classifies any exit with a nonzero code
outside `{1, 62097}` as an error, but `_is_normal_exit` accepts every exit
whose status flag is `NormalExit` before ever looking at the code: at exit
code 5 with a `NormalExit` status the code reports a normal exit (descriptor
set to "stopped", no error event), while the claim demands an error. -/
theorem C8_counterexample_normal_status_any_code :
    is_normal_exit 5 ExitStatus.normalExit = true ∧
    claim_normal_exit 5 ExitStatus.normalExit = false ∧
    on_plugin_process_finished 5 ExitStatus.normalExit = ("stopped", false) := by
  decide

/-- C8 (amended): an exit is classified normal exactly when the status flag
is `NormalExit` or the exit code is `0`, `1`, or `62097`; only a crash-status
exit whose code lies outside `{0, 1, 62097}` makes the plugin's status
`"error"` with an error event emitted, and every other exit yields status
`"stopped"` with no error event. -/
theorem C8_amended_normal_status_overrides_code
    (exit_code : Nat) (exit_status : ExitStatus) :
    is_normal_exit exit_code exit_status =
      (exit_status == ExitStatus.normalExit || exit_code == 0 || exit_code == 1
        || exit_code == 62097) ∧
    (on_plugin_process_finished exit_code exit_status = ("error", true) ↔
      (exit_status = ExitStatus.crashExit ∧ exit_code ≠ 0 ∧ exit_code ≠ 1 ∧
        exit_code ≠ 62097)) ∧
    (on_plugin_process_finished exit_code exit_status = ("stopped", false) ↔
      (exit_status = ExitStatus.normalExit ∨ exit_code = 0 ∨ exit_code = 1 ∨
        exit_code = 62097)) := by
  by_cases h0 : exit_code = 0
  · subst h0; cases exit_status <;> decide
  by_cases hone : exit_code = 1
  · subst hone; cases exit_status <;> decide
  by_cases h62 : exit_code = 62097
  · subst h62; cases exit_status <;> decide
  cases exit_status <;>
    simp [is_normal_exit, on_plugin_process_finished, beq_iff_eq, h0, hone, h62,
      Prod.ext_iff]

/-- C9 (code bug): `uninstall_plugin` can never remove a registered plugin:
the guard at line 315 reads the attribute `running_processes`, which is
never assigned anywhere in the repository, so every call on a registered
plugin raises `AttributeError`, is caught by the surrounding
`except Exception`, leaves `plugins_info` untouched, and returns `False` —
in particular a plugin whose directory is already missing is neither
removed from the descriptor list nor reported as successfully
uninstalled, contradicting the claim. -/
theorem C9_uninstall_never_removes :
    (∀ (plugins_info : List PluginRec) (n : String) (p : PluginRec),
        get_plugin_by_name plugins_info n = some p →
        uninstall_plugin plugins_info n = (plugins_info, false)) ∧
    get_plugin_by_name [⟨"demo", "plugins/demo"⟩] "demo" = some ⟨"demo", "plugins/demo"⟩ ∧
    uninstall_plugin [⟨"demo", "plugins/demo"⟩] "demo"
      = ([⟨"demo", "plugins/demo"⟩], false) := by
  refine ⟨?_, by decide, by decide⟩
  intro plugins_info n p h
  unfold uninstall_plugin
  rw [h]

/-- C9 witness: the registered plugin "demo" (directory missing or not)
survives its own uninstall, which reports failure. -/
theorem C9_witness :
    uninstall_plugin [⟨"demo", "plugins/demo"⟩] "demo"
      = ([⟨"demo", "plugins/demo"⟩], false) :=
  C9_uninstall_never_removes.1 [⟨"demo", "plugins/demo"⟩] "demo"
    ⟨"demo", "plugins/demo"⟩ (by decide)

end Tuleaj
